import Mathlib

/-!
Shallow embedding of `src/server.js` (dex-server): an Express HTTP gateway
proxying read-only SQL to a DuckDB/MotherDuck connection.

Modelling conventions:
* JS strings are `List Char` (`Str`); JSON values appearing in request
  bodies and result rows are `JsVal`; result rows are association lists.
* The database client is an oracle: `Str → Except Str (List JsRecord)`
  for `connection.all(sql, cb)` and `Str → Except Str Unit` for
  `connection.run(sql)`; an `Except.error` models the callback error /
  thrown exception, the error value being its message.
* Each route handler is a pure function from the shared connection state,
  the oracle and the request to the HTTP response it produces, paired with
  the list of SQL texts it submitted to the connection (in order).
* `res.json(x)` with no explicit status is status 200.
-/

namespace DexServer

/-- Text as a list of characters (the model of a JS string). -/
abbrev Str := List Char

/-- The single-quote character, written via its code point. -/
def quoteChar : Char := Char.ofNat 39

/-- JSON-like values: request-body fields and row-field values. -/
inductive JsVal where
  | str (s : Str)
  | num (n : Int)
  | bool (b : Bool)
  | null
  | obj
  | arr
deriving DecidableEq

/-- JavaScript truthiness of a value (`!v` is its negation). -/
def JsVal.truthy : JsVal → Bool
  | .str s => !s.isEmpty
  | .num n => n != 0
  | .bool b => b
  | .null => false
  | .obj => true
  | .arr => true

/-- `typeof v === 'string'`. -/
def JsVal.isStringType : JsVal → Bool
  | .str _ => true
  | _ => false

/-- The underlying text of a string value (other values never reach a use). -/
def JsVal.asStr : JsVal → Str
  | .str s => s
  | _ => []

/-- A result row: a mapping from column name to value, as an association list. -/
abbrev JsRecord := List (Str × JsVal)

/-- Property access `row[k]` (`undefined` is `none`). -/
def jsGet (r : JsRecord) (k : Str) : Option JsVal :=
  (r.find? (fun p => p.1 = k)).map (fun p => p.2)

/-- Whitespace characters removed by `String.prototype.trim`. -/
def isJsWhitespace (c : Char) : Bool :=
  c = ' ' || c = '\t' || c = '\n' || c = '\r' || c = '\x0b' || c = '\x0c'

/-- `s.trim()`: strip leading and trailing whitespace. -/
def jsTrim (s : Str) : Str :=
  ((s.dropWhile isJsWhitespace).reverse.dropWhile isJsWhitespace).reverse

/-- ASCII lower-casing of one character, as `toLowerCase` acts on A–Z. -/
def lowerChar (c : Char) : Char :=
  if 'A' ≤ c ∧ c ≤ 'Z' then Char.ofNat (c.toNat + 32) else c

/-- `s.toLowerCase()` on the ASCII range. -/
def jsToLowerCase (s : Str) : Str := s.map lowerChar

/-- `x.replaceAll(quote, quotequote)`: double every single quote (server.js:38-39). -/
def escapeQuotes : Str → Str
  | [] => []
  | c :: rest =>
    if c = quoteChar then c :: c :: escapeQuotes rest else c :: escapeQuotes rest

/-- The separator of `split('md:')` / needle of `includes('md:')`. -/
def mdSep : Str := ['m', 'd', ':']

/-- `s.includes('md:')`: whether `md:` occurs as a contiguous substring. -/
def containsMd (s : Str) : Bool := decide (mdSep <:+: s)

/-- Prepend a character to the first piece of a split (helper for `splitOnMd`). -/
def consHead (c : Char) : List Str → List Str
  | [] => [[c]]
  | h :: t => (c :: h) :: t

/-- `s.split('md:')`: the pieces of `s` between occurrences of `md:`, scanning
left to right, as `String.prototype.split` produces them. -/
def splitOnMd : Str → List Str
  | [] => [[]]
  | c :: rest =>
    if c = 'm' ∧ rest.take 2 = ['d', ':'] then
      [] :: splitOnMd (rest.drop 2)
    else
      consHead c (splitOnMd rest)
termination_by s => s.length
decreasing_by
  · simp; omega
  · simp

/-- Parser for the tail of a single-quoted SQL string literal (the opening
quote already consumed): content up to the closing quote, a doubled quote
standing for one quote character.  Returns the denoted value and the text
after the closing quote; `none` when no closing quote exists.  Used to state
which value an embedded literal in a built statement actually denotes. -/
def parseLitAux : Str → Option (Str × Str)
  | [] => none
  | c :: rest =>
    if c = quoteChar then
      match rest with
      | c2 :: rest2 =>
        if c2 = quoteChar then
          (parseLitAux rest2).map (fun p => (quoteChar :: p.1, p.2))
        else
          some ([], rest)
      | [] => some ([], [])
    else
      (parseLitAux rest).map (fun p => (c :: p.1, p.2))

/-- Parse a single-quoted SQL string literal standing at the front of `s`. -/
def parseLit (s : Str) : Option (Str × Str) :=
  match s with
  | c :: rest => if c = quoteChar then parseLitAux rest else none
  | [] => none

/-! ### Connection initialization (server.js:25-53) -/

/-- `process.env.MOTHERDUCK_DATABASE || 'md:default'` (server.js:27). -/
def effectiveDatabase (database : Option Str) : Str :=
  match database with
  | some d => if d.isEmpty then "md:default".data else d
  | none => "md:default".data

/-- `INSTALL motherduck;` (server.js:40). -/
def installStmt : Str := "INSTALL motherduck;".data

/-- `LOAD motherduck;` (server.js:41). -/
def loadStmt : Str := "LOAD motherduck;".data

/-- `ATTACH '(safeDb)' (TOKEN '(safeToken)');` (server.js:43). -/
def attachStmt (safeDb safeToken : Str) : Str :=
  "ATTACH '".data ++ safeDb ++ "' (TOKEN '".data ++ safeToken ++ "');".data

/-- `safeDb.includes('md:') ? safeDb.split('md:').pop() : safeDb` (server.js:44). -/
def dbNameOf (safeDb : Str) : Str :=
  if containsMd safeDb then (splitOnMd safeDb).getLastD [] else safeDb

/-- `USE (dbName);` (server.js:45). -/
def useStmt (safeDb : Str) : Str :=
  "USE ".data ++ dbNameOf safeDb ++ ";".data

/-- `initializeMotherDuckConnection` (server.js:25-51): reads the token and
database from the environment; absent (or empty, hence falsy) token leaves the
connection unset; otherwise runs INSTALL, LOAD, ATTACH (with quotes doubled in
the embedded token and database), USE in order inside try/catch — a failing
step aborts the sequence, the exception is swallowed and the connection stays
unset; only full success installs the connection.  Returns the connection
state and the statements submitted via `conn.run`. -/
def initializeMotherDuckConnection (token : Option Str) (database : Option Str)
    (runStmt : Str → Except Str Unit) : Option Unit × List Str :=
  let motherDuckDatabase := effectiveDatabase database
  match token with
  | none => (none, [])
  | some tok =>
    if tok.isEmpty then (none, []) else
    let safeToken := escapeQuotes tok
    let safeDb := escapeQuotes motherDuckDatabase
    match runStmt installStmt with
    | .error _ => (none, [installStmt])
    | .ok _ =>
      match runStmt loadStmt with
      | .error _ => (none, [installStmt, loadStmt])
      | .ok _ =>
        match runStmt (attachStmt safeDb safeToken) with
        | .error _ => (none, [installStmt, loadStmt, attachStmt safeDb safeToken])
        | .ok _ =>
          match runStmt (useStmt safeDb) with
          | .error _ =>
            (none, [installStmt, loadStmt, attachStmt safeDb safeToken, useStmt safeDb])
          | .ok _ =>
            (some (), [installStmt, loadStmt, attachStmt safeDb safeToken, useStmt safeDb])

/-! ### Response model -/

/-- `{ error: ..., message: ..., timestamp: ... }` of the 500 handler. -/
structure ErrorBody where
  error : Str
  message : Str
  timestamp : Str
deriving DecidableEq

/-- The generic error handler (server.js:180-187): a 500 response whose
`message` is redacted exactly when `NODE_ENV === 'production'`. -/
def errorHandler (nodeEnv : Option Str) (errMessage : Str) (timestamp : Str) :
    Nat × ErrorBody :=
  (500,
   { error := "Something went wrong!".data
     message :=
       if nodeEnv = some "production".data then "Internal server error".data
       else errMessage
     timestamp := timestamp })

/-- Per-field error messages of the diagnostics payload (`result.errors`). -/
structure DiagErrors where
  database_list : Option Str
  current_database : Option Str
  schemata : Option Str
  table_count : Option Str
deriving DecidableEq

/-- The diagnostics payload (server.js:112). -/
structure DiagResult where
  database_list : Option (List JsRecord)
  current_database : JsVal
  schemas : Option (List JsRecord)
  table_count : JsVal
  errors : DiagErrors
deriving DecidableEq

/-- JSON response bodies produced by the `/api/md/*` handlers. -/
inductive Body where
  | errMsg (m : Str)
  | rowsBody (rows : List JsRecord)
  | tablesBody (rows : List JsRecord)
  | diag (d : DiagResult)
deriving DecidableEq

/-- A handler's outcome: a JSON response with a status, or delegation of an
error to the generic error-handling middleware via `next(err)`. -/
inductive ApiResult where
  | resp (status : Nat) (body : Body)
  | delegated (err : Str)
deriving DecidableEq

/-- The 503 message of every `/api/md/*` route. -/
def unavailableMsg : Str := "MotherDuck not configured. Set MOTHERDUCK_TOKEN.".data

/-- The 400 message for an absent/empty/non-string `sql` field (server.js:155). -/
def missingSqlMsg : Str := "Missing SQL in body \x7b sql \x7d".data

/-- The 400 message for a non-SELECT statement (server.js:159). -/
def onlySelectMsg : Str := "Only SELECT queries are allowed.".data

/-! ### GET /api/md/tables (server.js:82-105) -/

/-- `req.query.schema ? "AND table_schema = '" + s + "'" : ''` (server.js:87). -/
def schemaFilterStr (schemaParam : Option Str) : Str :=
  match schemaParam with
  | some q =>
    if q.isEmpty then [] else "AND table_schema = '".data ++ q ++ "'".data
  | none => []

/-- `String(req.query.includeViews || '').toLowerCase() === 'true'` (server.js:88). -/
def includeViewsFlag (includeViewsParam : Option Str) : Bool :=
  jsToLowerCase (includeViewsParam.getD []) = "true".data

/-- The `table_type` filter fragment (server.js:89). -/
def typeFilterStr (includeViews : Bool) : Str :=
  if includeViews then "IN ('BASE TABLE','VIEW')".data else "= 'BASE TABLE'".data

/-- The SQL text built for `/api/md/tables` (server.js:90-97), character for
character, template newlines and indentation included. -/
def tablesSql (schemaParam : Option Str) (includeViewsParam : Option Str) : Str :=
  "\n      SELECT table_catalog, table_schema, table_name, table_type\n      FROM information_schema.tables\n      WHERE table_type ".data
  ++ typeFilterStr (includeViewsFlag includeViewsParam)
  ++ "\n        AND table_schema NOT IN ('information_schema', 'pg_catalog')\n        ".data
  ++ schemaFilterStr schemaParam
  ++ "\n      ORDER BY table_catalog, table_schema, table_name\n    ".data

/-- The handler of `GET /api/md/tables`: 503 when unconfigured, otherwise
submits the built catalog query; an engine error goes to `next(err)`. -/
def apiMdTables (conn : Option Unit) (engine : Str → Except Str (List JsRecord))
    (schemaParam includeViewsParam : Option Str) : ApiResult × List Str :=
  match conn with
  | none => (.resp 503 (.errMsg unavailableMsg), [])
  | some _ =>
    let sql := tablesSql schemaParam includeViewsParam
    match engine sql with
    | .error e => (.delegated e, [sql])
    | .ok rows => (.resp 200 (.tablesBody rows), [sql])

/-! ### Semantics of the catalog query

The query of server.js:90-97 has a fixed shape; the following is its meaning
as a function of the `information_schema.tables` relation, assuming the
interpolated schema parameter reads as a string literal (which, by the
injection result below, requires it to be free of single quotes). -/

/-- A row of `information_schema.tables`. -/
structure TableRow where
  table_catalog : Str
  table_schema : Str
  table_name : Str
  table_type : Str
deriving DecidableEq

/-- `table_type IN ('BASE TABLE','VIEW')` resp. `table_type = 'BASE TABLE'`. -/
def typeFilterPasses (includeViews : Bool) (t : Str) : Bool :=
  if includeViews then t = "BASE TABLE".data ∨ t = "VIEW".data
  else t = "BASE TABLE".data

/-- `table_schema NOT IN ('information_schema', 'pg_catalog')`. -/
def schemaNotSystem (s : Str) : Bool :=
  ¬ (s = "information_schema".data ∨ s = "pg_catalog".data)

/-- The optional `AND table_schema = '...'` clause: restricts to the given
schema exactly when a non-empty (truthy) parameter was supplied. -/
def schemaFilterPasses (schemaParam : Option Str) (s : Str) : Bool :=
  match schemaParam with
  | some q => if q.isEmpty then true else s = q
  | none => true

/-- The whole WHERE clause of the catalog query. -/
def tablesWherePasses (schemaParam : Option Str) (includeViews : Bool)
    (r : TableRow) : Bool :=
  typeFilterPasses includeViews r.table_type
  && schemaNotSystem r.table_schema
  && schemaFilterPasses schemaParam r.table_schema

/-- The ORDER BY key: catalog, then schema, then name, lexicographically. -/
def rowKey (r : TableRow) : Lex (String × Lex (String × String)) :=
  toLex (⟨r.table_catalog⟩, toLex (⟨r.table_schema⟩, ⟨r.table_name⟩))

/-- The row ordering demanded by `ORDER BY table_catalog, table_schema, table_name`. -/
def rowOrder (a b : TableRow) : Prop := rowKey a ≤ rowKey b

instance : DecidableRel rowOrder :=
  fun a b => inferInstanceAs (Decidable (rowKey a ≤ rowKey b))

instance : IsTotal TableRow rowOrder := ⟨fun a b => le_total (rowKey a) (rowKey b)⟩

instance : IsTrans TableRow rowOrder := ⟨fun _ _ _ h1 h2 => le_trans h1 h2⟩

/-- The catalog query's meaning: filter `information_schema.tables` by the
WHERE clause and return the rows sorted by the ORDER BY key (any sorted
permutation — SQL promises no more). -/
def tablesQuery (schemaParam : Option Str) (includeViews : Bool)
    (catalog : List TableRow) : List TableRow :=
  List.insertionSort rowOrder
    (catalog.filter (tablesWherePasses schemaParam includeViews))

/-! ### GET /api/md/diagnostics (server.js:108-134) -/

/-- `PRAGMA database_list;` (server.js:114). -/
def diagQ1 : Str := "PRAGMA database_list;".data

/-- `SELECT current_database() AS current_database;` (server.js:118). -/
def diagQ2 : Str := "SELECT current_database() AS current_database;".data

/-- The schema listing of server.js:122. -/
def diagQ3 : Str :=
  "SELECT schema_name FROM information_schema.schemata ORDER BY schema_name;".data

/-- The table count of server.js:126. -/
def diagQ4 : Str := "SELECT COUNT(*) AS table_count FROM information_schema.tables;".data

/-- `currentDb?.[0]?.current_database || null` (server.js:120). -/
def extractCurrentDb (rows : List JsRecord) : JsVal :=
  match rows.head? with
  | some r0 =>
    match jsGet r0 "current_database".data with
    | some v => if v.truthy then v else .null
    | none => .null
  | none => .null

/-- `count?.[0]?.table_count ?? null` (server.js:128). -/
def extractTableCount (rows : List JsRecord) : JsVal :=
  match rows.head? with
  | some r0 =>
    match jsGet r0 "table_count".data with
    | some v => if v = .null then .null else v
    | none => .null
  | none => .null

/-- The composite payload the diagnostics handler builds (server.js:112-128):
starting from the all-null record, the four sub-queries run in sequence, each
callback recording either its datum or its error message and continuing. -/
def diagPayload (engine : Str → Except Str (List JsRecord)) : DiagResult :=
  let r0 : DiagResult :=
    { database_list := none, current_database := .null, schemas := none,
      table_count := .null,
      errors := ⟨none, none, none, none⟩ }
  let r1 :=
    match engine diagQ1 with
    | .error e => { r0 with errors := { r0.errors with database_list := some e } }
    | .ok rows => { r0 with database_list := some rows }
  let r2 :=
    match engine diagQ2 with
    | .error e => { r1 with errors := { r1.errors with current_database := some e } }
    | .ok rows => { r1 with current_database := extractCurrentDb rows }
  let r3 :=
    match engine diagQ3 with
    | .error e => { r2 with errors := { r2.errors with schemata := some e } }
    | .ok rows => { r2 with schemas := some rows }
  match engine diagQ4 with
  | .error e => { r3 with errors := { r3.errors with table_count := some e } }
  | .ok rows => { r3 with table_count := extractTableCount rows }

/-- The handler of `GET /api/md/diagnostics`: 503 when unconfigured; otherwise
answers 200 with the composite payload (there is no `next(err)` path). -/
def apiMdDiagnostics (conn : Option Unit)
    (engine : Str → Except Str (List JsRecord)) : ApiResult × List Str :=
  match conn with
  | none => (.resp 503 (.errMsg unavailableMsg), [])
  | some _ => (.resp 200 (.diag (diagPayload engine)), [diagQ1, diagQ2, diagQ3, diagQ4])

/-! ### GET /api/md/ping (server.js:137-145) -/

/-- `SELECT 1 AS ok;` (server.js:141). -/
def pingQuery : Str := "SELECT 1 AS ok;".data

/-- The handler of `GET /api/md/ping`. -/
def apiMdPing (conn : Option Unit) (engine : Str → Except Str (List JsRecord)) :
    ApiResult × List Str :=
  match conn with
  | none => (.resp 503 (.errMsg unavailableMsg), [])
  | some _ =>
    match engine pingQuery with
    | .error e => (.delegated e, [pingQuery])
    | .ok rows => (.resp 200 (.rowsBody rows), [pingQuery])

/-! ### POST /api/md/query (server.js:148-168) -/

/-- The handler of `POST /api/md/query`.  `sqlField` is the `sql` property of
`req.body || <empty object>` (`none` = absent/undefined).  Checks, in order:
connection configured (503), `!sql || typeof sql !== 'string'` (400 missing),
trimmed lower-cased text starts with `select` (400 only-SELECT); then submits
the original, untransformed text and relays the rows. -/
def apiMdQuery (conn : Option Unit) (engine : Str → Except Str (List JsRecord))
    (sqlField : Option JsVal) : ApiResult × List Str :=
  match conn with
  | none => (.resp 503 (.errMsg unavailableMsg), [])
  | some _ =>
    match sqlField with
    | none => (.resp 400 (.errMsg missingSqlMsg), [])
    | some v =>
      if !v.truthy || !v.isStringType then (.resp 400 (.errMsg missingSqlMsg), [])
      else
        let s := v.asStr
        let trimmed := jsToLowerCase (jsTrim s)
        if "select".data.isPrefixOf trimmed then
          match engine s with
          | .error e => (.delegated e, [s])
          | .ok rows => (.resp 200 (.rowsBody rows), [s])
        else (.resp 400 (.errMsg onlySelectMsg), [])

/-! ## Helper lemmas -/

theorem escapeQuotes_of_not_mem {s : Str} (h : quoteChar ∉ s) : escapeQuotes s = s := by
  induction s with
  | nil => rfl
  | cons c rest ih =>
    have hc : c ≠ quoteChar := fun hc => h (hc ▸ List.mem_cons_self c rest)
    simp only [escapeQuotes, if_neg hc]
    exact congrArg (c :: ·) (ih (fun hm => h (List.mem_cons_of_mem c hm)))

theorem parseLitAux_escape (s : Str) {rest : Str}
    (h : rest.head? ≠ some quoteChar) :
    parseLitAux (escapeQuotes s ++ quoteChar :: rest) = some (s, rest) := by
  induction s with
  | nil =>
    cases rest with
    | nil => simp [escapeQuotes, parseLitAux]
    | cons c2 r2 =>
      have hc2 : ¬ c2 = quoteChar := fun hc => h (by simp [hc])
      simp [escapeQuotes, parseLitAux, hc2]
  | cons c s' ih =>
    by_cases hc : c = quoteChar
    · subst hc
      simp only [escapeQuotes, if_pos rfl, List.cons_append]
      rw [parseLitAux.eq_def]
      simp [ih]
    · simp only [escapeQuotes, if_neg hc, List.cons_append]
      rw [parseLitAux.eq_def]
      simp [hc, ih]

theorem consHead_ne_nil (c : Char) (l : List Str) : consHead c l ≠ [] := by
  cases l <;> simp [consHead]

theorem splitOnMd_ne_nil (s : Str) : splitOnMd s ≠ [] := by
  cases s with
  | nil => simp [splitOnMd]
  | cons c rest =>
    rw [splitOnMd]
    split
    · simp
    · exact consHead_ne_nil _ _

theorem getLastD_irrel {l : List Str} (hl : l ≠ []) (d d' : Str) :
    l.getLastD d = l.getLastD d' := by
  obtain ⟨a, ha⟩ := List.getLast?_isSome.mpr hl |> Option.isSome_iff_exists.mp
  rw [List.getLastD_eq_getLast?, List.getLastD_eq_getLast?, ha]
  rfl

theorem containsMd_cons (c : Char) (rest : Str) :
    containsMd (c :: rest) = true ↔
      ((c = 'm' ∧ rest.take 2 = ['d', ':']) ∨ containsMd rest = true) := by
  simp only [containsMd, decide_eq_true_eq, mdSep]
  rw [List.infix_cons_iff, List.cons_prefix_cons]
  constructor
  · rintro (⟨hm, hp⟩ | hi)
    · exact Or.inl ⟨hm.symm, (List.prefix_iff_eq_take.mp hp).symm⟩
    · exact Or.inr hi
  · rintro (⟨hm, ht⟩ | hi)
    · exact Or.inl ⟨hm.symm, List.prefix_iff_eq_take.mpr ht.symm⟩
    · exact Or.inr hi

/-- The structural characterization of `split('md:')` + `pop()`: with no
occurrence the split is the whole string; with one, the popped last piece is
the text after the last occurrence (it follows an `md:` and holds none). -/
theorem splitOnMd_last_spec (s : Str) :
    (containsMd s = false → splitOnMd s = [s])
    ∧ (containsMd s = true →
        2 ≤ (splitOnMd s).length
        ∧ ∃ pre, s = pre ++ mdSep ++ (splitOnMd s).getLastD []
            ∧ containsMd ((splitOnMd s).getLastD []) = false) := by
  suffices h : ∀ (n : Nat) (s : Str), s.length ≤ n →
      (containsMd s = false → splitOnMd s = [s])
      ∧ (containsMd s = true →
          2 ≤ (splitOnMd s).length
          ∧ ∃ pre, s = pre ++ mdSep ++ (splitOnMd s).getLastD []
              ∧ containsMd ((splitOnMd s).getLastD []) = false) from
    h s.length s le_rfl
  intro n
  induction n with
  | zero =>
    intro s hs
    have hnil : s = [] := List.eq_nil_of_length_eq_zero (Nat.le_zero.mp hs)
    subst hnil
    exact ⟨fun _ => by simp [splitOnMd], fun hc => absurd hc (by decide)⟩
  | succ n ih =>
    intro s hs
    cases s with
    | nil => exact ⟨fun _ => by simp [splitOnMd], fun hc => absurd hc (by decide)⟩
    | cons c rest =>
      by_cases hc : c = 'm' ∧ rest.take 2 = ['d', ':']
      · obtain ⟨hcm', hct⟩ := hc
        subst hcm'
        obtain ⟨r, hrr⟩ : ∃ r, rest = 'd' :: ':' :: r :=
          ⟨rest.drop 2, by
            conv_lhs => rw [← List.take_append_drop 2 rest]
            rw [hct]
            rfl⟩
        subst hrr
        have hsplit : splitOnMd ('m' :: 'd' :: ':' :: r) = [] :: splitOnMd r := by
          rw [splitOnMd, if_pos ⟨rfl, rfl⟩]
          rfl
        have hcm : containsMd ('m' :: 'd' :: ':' :: r) = true :=
          (containsMd_cons 'm' ('d' :: ':' :: r)).mpr (Or.inl ⟨rfl, hct⟩)
        have hlen : r.length ≤ n := by
          simp only [List.length_cons] at hs
          omega
        have ihr := ih r hlen
        have hne := splitOnMd_ne_nil r
        refine ⟨fun hf => absurd (hcm.symm.trans hf) (by decide), fun _ => ?_⟩
        have hlast : (splitOnMd ('m' :: 'd' :: ':' :: r)).getLastD []
            = (splitOnMd r).getLastD [] := by
          rw [hsplit, List.getLastD_cons]
        constructor
        · rw [hsplit]
          have h1 : splitOnMd r ≠ [] := hne
          simp only [List.length_cons]
          have : 0 < (splitOnMd r).length := List.length_pos.mpr h1
          omega
        · rw [hlast]
          cases hmd : containsMd r with
          | false =>
            have heq : splitOnMd r = [r] := ihr.1 hmd
            have hlr : (splitOnMd r).getLastD [] = r := by
              rw [heq]
              simp [List.getLastD_eq_getLast?]
            rw [hlr]
            exact ⟨[], rfl, hmd⟩
          | true =>
            obtain ⟨_, pre', heq, hlast'⟩ := ihr.2 hmd
            refine ⟨mdSep ++ pre', ?_, hlast'⟩
            conv_lhs => rw [heq]
            simp [mdSep, List.append_assoc]
      · have hsplit : splitOnMd (c :: rest) = consHead c (splitOnMd rest) := by
          rw [splitOnMd, if_neg hc]
        have hcm : containsMd (c :: rest) = containsMd rest := by
          cases hr : containsMd rest with
          | true => exact (containsMd_cons c rest).mpr (Or.inr hr)
          | false =>
            cases hcc : containsMd (c :: rest) with
            | false => rfl
            | true =>
              rcases (containsMd_cons c rest).mp hcc with h1 | h2
              · exact absurd h1 hc
              · rw [hr] at h2
                exact absurd h2 (by decide)
        have hlen : rest.length ≤ n := by
          simp only [List.length_cons] at hs
          omega
        have ihr := ih rest hlen
        cases hmd : containsMd rest with
        | false =>
          have heq : splitOnMd (c :: rest) = [c :: rest] := by
            rw [hsplit, ihr.1 hmd]
            rfl
          refine ⟨fun _ => heq, fun ht => absurd ht ?_⟩
          rw [hcm, hmd]
          simp
        | true =>
          obtain ⟨hlen2, pre', heq, hlast'⟩ := ihr.2 hmd
          obtain ⟨h0, t0, ht0⟩ : ∃ h0 t0, splitOnMd rest = h0 :: t0 := by
            cases hsr : splitOnMd rest with
            | nil => exact absurd hsr (splitOnMd_ne_nil rest)
            | cons a b => exact ⟨a, b, rfl⟩
          have ht0ne : t0 ≠ [] := by
            intro h0nil
            rw [ht0, h0nil] at hlen2
            simp at hlen2
          have hlast : (splitOnMd (c :: rest)).getLastD []
              = (splitOnMd rest).getLastD [] := by
            rw [hsplit, ht0]
            show ((c :: h0) :: t0).getLastD [] = (h0 :: t0).getLastD []
            rw [List.getLastD_cons, List.getLastD_cons]
            exact getLastD_irrel ht0ne _ _
          refine ⟨fun hf => absurd hf ?_, fun _ => ?_⟩
          · rw [hcm, hmd]
            simp
          constructor
          · rw [hsplit, ht0]
            show 2 ≤ ((c :: h0) :: t0).length
            rw [ht0] at hlen2
            simpa using hlen2
          · rw [hlast]
            refine ⟨c :: pre', ?_, hlast'⟩
            conv_lhs => rw [heq]
            simp [mdSep, List.append_assoc]

/-! ## Claim theorems -/

/-- C1: validation order of `POST /api/md/query`: with no connection the
response is 503 whatever the body; with a connection, an absent, empty or
non-string `sql` gets the 400 missing-SQL message; a non-empty string whose
trimmed lower-cased text does not start with `select` gets the 400
only-SELECT message (and no query is issued); otherwise the SQL is executed. -/
theorem apiMdQuery_validation_order
    (engine : Str → Except Str (List JsRecord)) (sqlField : Option JsVal) :
    apiMdQuery none engine sqlField = (.resp 503 (.errMsg unavailableMsg), [])
    ∧ apiMdQuery (some ()) engine none = (.resp 400 (.errMsg missingSqlMsg), [])
    ∧ apiMdQuery (some ()) engine (some (.str []))
        = (.resp 400 (.errMsg missingSqlMsg), [])
    ∧ (∀ v : JsVal, v.isStringType = false →
        apiMdQuery (some ()) engine (some v)
          = (.resp 400 (.errMsg missingSqlMsg), []))
    ∧ (∀ s : Str, s ≠ [] →
        "select".data.isPrefixOf (jsToLowerCase (jsTrim s)) = false →
        apiMdQuery (some ()) engine (some (.str s))
          = (.resp 400 (.errMsg onlySelectMsg), []))
    ∧ (∀ s : Str, s ≠ [] →
        "select".data.isPrefixOf (jsToLowerCase (jsTrim s)) = true →
        apiMdQuery (some ()) engine (some (.str s))
          = (match engine s with
             | .ok rows => (.resp 200 (.rowsBody rows), [s])
             | .error e => (.delegated e, [s]))) := by
  refine ⟨rfl, rfl, rfl, ?_, ?_, ?_⟩
  · intro v hv
    cases v <;> simp_all [apiMdQuery, JsVal.isStringType, JsVal.truthy]
  · intro s hs hsel
    have he : s.isEmpty = false := List.isEmpty_eq_false.mpr hs
    simp [apiMdQuery, JsVal.truthy, JsVal.isStringType, JsVal.asStr, he, hsel]
  · intro s hs hsel
    have he : s.isEmpty = false := List.isEmpty_eq_false.mpr hs
    cases hrun : engine s <;>
      simp [apiMdQuery, JsVal.truthy, JsVal.isStringType, JsVal.asStr, he, hsel,
        hrun]

/-- Witness for C1 at concrete inputs: a numeric `sql` field is rejected as
missing SQL. -/
theorem apiMdQuery_validation_order_witness :
    apiMdQuery (some ()) (fun _ => .ok ([] : List JsRecord)) (some (.num 5))
      = (.resp 400 (.errMsg missingSqlMsg), []) :=
  (apiMdQuery_validation_order (fun _ => .ok []) none).2.2.2.1 (.num 5) rfl

/-- C2: an accepted SQL string is submitted to the engine verbatim (the
original text, not its trimmed/lower-cased form), and the engine's rows are
relayed unchanged as the `rows` field of the 200 response. -/
theorem apiMdQuery_verbatim_roundtrip
    (engine : Str → Except Str (List JsRecord)) (s : Str)
    (rows : List JsRecord) (hne : s ≠ [])
    (hsel : "select".data.isPrefixOf (jsToLowerCase (jsTrim s)) = true)
    (hrun : engine s = .ok rows) :
    apiMdQuery (some ()) engine (some (.str s))
      = (.resp 200 (.rowsBody rows), [s]) := by
  have he : s.isEmpty = false := List.isEmpty_eq_false.mpr hne
  simp [apiMdQuery, JsVal.truthy, JsVal.isStringType, JsVal.asStr, he, hsel, hrun]

/-- Witness for C2: `select 1 as ok` round-trips the engine's row unchanged. -/
theorem apiMdQuery_verbatim_roundtrip_witness :
    apiMdQuery (some ())
        (fun _ => .ok [[("ok".data, JsVal.num 1)]])
        (some (.str "select 1 as ok".data))
      = (.resp 200 (.rowsBody [[("ok".data, JsVal.num 1)]]),
         ["select 1 as ok".data]) :=
  apiMdQuery_verbatim_roundtrip _ _ _ (by decide) (by decide) rfl

/-- C3: a body whose (non-empty) `sql` string does not start with `select`
after trimming and lower-casing is answered 400 with the only-SELECT message,
and no query text is ever submitted to the connection. -/
theorem apiMdQuery_non_select_never_reaches_db
    (engine : Str → Except Str (List JsRecord)) (s : Str) (hne : s ≠ [])
    (hsel : "select".data.isPrefixOf (jsToLowerCase (jsTrim s)) = false) :
    apiMdQuery (some ()) engine (some (.str s))
      = (.resp 400 (.errMsg onlySelectMsg), []) := by
  have he : s.isEmpty = false := List.isEmpty_eq_false.mpr hne
  simp [apiMdQuery, JsVal.truthy, JsVal.isStringType, JsVal.asStr, he, hsel]

/-- Witness for C3 at the spec's example `drop table x`. -/
theorem apiMdQuery_non_select_never_reaches_db_witness :
    apiMdQuery (some ()) (fun _ => .ok ([] : List JsRecord))
        (some (.str "drop table x".data))
      = (.resp 400 (.errMsg onlySelectMsg), []) :=
  apiMdQuery_non_select_never_reaches_db _ _ (by decide) (by decide)

/-- C4: with the token environment variable unset, initialization leaves the
connection unset and runs no statement, and every `/api/md/*` endpoint then
answers 503 with the not-configured message and submits no query. -/
theorem no_token_all_md_endpoints_unavailable
    (database : Option Str) (runStmt : Str → Except Str Unit)
    (engine : Str → Except Str (List JsRecord))
    (schemaParam includeViewsParam : Option Str) (sqlField : Option JsVal) :
    initializeMotherDuckConnection none database runStmt = (none, [])
    ∧ apiMdTables none engine schemaParam includeViewsParam
        = (.resp 503 (.errMsg unavailableMsg), [])
    ∧ apiMdDiagnostics none engine = (.resp 503 (.errMsg unavailableMsg), [])
    ∧ apiMdPing none engine = (.resp 503 (.errMsg unavailableMsg), [])
    ∧ apiMdQuery none engine sqlField
        = (.resp 503 (.errMsg unavailableMsg), []) :=
  ⟨rfl, rfl, rfl, rfl, rfl⟩

/-- C5: with a connection, diagnostics always submits its four sub-queries in
order whatever succeeds or fails, always answers 200 with the composite
payload (there is no delegation to the error middleware), and each output
field resp. error entry is determined by its own sub-query alone: a failure
is recorded as that field's message under `errors` while the data field keeps
its null default, and a success populates the data field with no error. -/
theorem apiMdDiagnostics_always_responds_all_steps
    (engine : Str → Except Str (List JsRecord)) :
    apiMdDiagnostics (some ()) engine
      = (.resp 200 (.diag (diagPayload engine)), [diagQ1, diagQ2, diagQ3, diagQ4])
    ∧ (diagPayload engine).database_list
        = (match engine diagQ1 with | .ok rows => some rows | .error _ => none)
    ∧ (diagPayload engine).errors.database_list
        = (match engine diagQ1 with | .ok _ => none | .error e => some e)
    ∧ (diagPayload engine).current_database
        = (match engine diagQ2 with
           | .ok rows => extractCurrentDb rows | .error _ => .null)
    ∧ (diagPayload engine).errors.current_database
        = (match engine diagQ2 with | .ok _ => none | .error e => some e)
    ∧ (diagPayload engine).schemas
        = (match engine diagQ3 with | .ok rows => some rows | .error _ => none)
    ∧ (diagPayload engine).errors.schemata
        = (match engine diagQ3 with | .ok _ => none | .error e => some e)
    ∧ (diagPayload engine).table_count
        = (match engine diagQ4 with
           | .ok rows => extractTableCount rows | .error _ => .null)
    ∧ (diagPayload engine).errors.table_count
        = (match engine diagQ4 with | .ok _ => none | .error e => some e) := by
  refine ⟨rfl, ?_⟩
  rcases h1 : engine diagQ1 with e1 | r1 <;>
    rcases h2 : engine diagQ2 with e2 | r2 <;>
    rcases h3 : engine diagQ3 with e3 | r3 <;>
    rcases h4 : engine diagQ4 with e4 | r4 <;>
    simp [diagPayload, h1, h2, h3, h4]

/-- C7 counterexample: with `NODE_ENV` set to `test` — not development mode —
the 500 handler's message is the raw error message `boom`, not the generic
redacted string, refuting the claim that redaction happens whenever the
environment is not development mode. -/
theorem errorHandler_not_development_not_redacted :
    some "test".data ≠ some "development".data
    ∧ (errorHandler (some "test".data) "boom".data "ts".data).2.message
        = "boom".data
    ∧ "boom".data ≠ "Internal server error".data :=
  ⟨by decide, rfl, by decide⟩

/-- C7 amended: the 500 response body always carries the fixed `error` string
and the given timestamp, and its `message` is the generic redacted string
exactly when `NODE_ENV` equals `production`; in every other environment the
underlying error's message is exposed. -/
theorem errorHandler_shape_and_production_redaction
    (nodeEnv : Option Str) (errMessage timestamp : Str) :
    (errorHandler nodeEnv errMessage timestamp).1 = 500
    ∧ (errorHandler nodeEnv errMessage timestamp).2.error
        = "Something went wrong!".data
    ∧ (errorHandler nodeEnv errMessage timestamp).2.timestamp = timestamp
    ∧ (nodeEnv = some "production".data →
        (errorHandler nodeEnv errMessage timestamp).2.message
          = "Internal server error".data)
    ∧ (nodeEnv ≠ some "production".data →
        (errorHandler nodeEnv errMessage timestamp).2.message = errMessage) := by
  refine ⟨rfl, rfl, rfl, fun h => ?_, fun h => ?_⟩
  · simp [errorHandler, h]
  · simp [errorHandler, h]

/-- Witness for the amended C7 in production mode. -/
theorem errorHandler_shape_witness :
    (errorHandler (some "production".data) "boom".data "ts".data).2.message
      = "Internal server error".data :=
  (errorHandler_shape_and_production_redaction
    (some "production".data) "boom".data "ts".data).2.2.2.1 rfl

/-- C8: with a (truthy) token present, if any step of the attach sequence
(INSTALL, LOAD, ATTACH, USE) fails, initialization returns normally — the
model's initializer is a total function, the catch swallowing the exception —
and the shared connection handle stays unset. -/
theorem init_step_failure_leaves_connection_unset
    (tok : Str) (database : Option Str) (runStmt : Str → Except Str Unit)
    (htok : tok ≠ [])
    (hfail : runStmt installStmt ≠ .ok ()
      ∨ runStmt loadStmt ≠ .ok ()
      ∨ runStmt (attachStmt (escapeQuotes (effectiveDatabase database))
          (escapeQuotes tok)) ≠ .ok ()
      ∨ runStmt (useStmt (escapeQuotes (effectiveDatabase database)))
          ≠ .ok ()) :
    (initializeMotherDuckConnection (some tok) database runStmt).1 = none := by
  have he : tok.isEmpty = false := List.isEmpty_eq_false.mpr htok
  rcases h1 : runStmt installStmt with e1 | u1
  · simp [initializeMotherDuckConnection, he, h1]
  · cases u1
    rcases h2 : runStmt loadStmt with e2 | u2
    · simp [initializeMotherDuckConnection, he, h1, h2]
    · cases u2
      rcases h3 : runStmt (attachStmt (escapeQuotes (effectiveDatabase database))
          (escapeQuotes tok)) with e3 | u3
      · simp [initializeMotherDuckConnection, he, h1, h2, h3]
      · cases u3
        rcases h4 : runStmt (useStmt (escapeQuotes (effectiveDatabase database)))
            with e4 | u4
        · simp [initializeMotherDuckConnection, he, h1, h2, h3, h4]
        · cases u4
          rcases hfail with hf | hf | hf | hf
          · exact absurd h1 hf
          · exact absurd h2 hf
          · exact absurd h3 hf
          · exact absurd h4 hf

/-- Witness for C8: a failing INSTALL step leaves the connection unset. -/
theorem init_step_failure_leaves_connection_unset_witness :
    (initializeMotherDuckConnection (some "t".data) none
        (fun s => if s = installStmt then .error "boom".data else .ok ())).1
      = none :=
  init_step_failure_leaves_connection_unset "t".data none _ (by decide)
    (Or.inl (by simp))

/-- C6: the handler issues exactly the built catalog query; under its meaning,
the `includeViews` parameter equals `true` case-insensitively (concrete pairs
shown) exactly when view-typed rows can appear: the result always excludes the
two system schemas, restricts to a supplied non-empty (quote-free) schema,
holds base tables only when the flag is off, contains a view-typed row passing
the other filters if and only if the flag is on, and is sorted by catalog,
then schema, then table name. -/
theorem tablesQuery_filters_and_order
    (engine : Str → Except Str (List JsRecord))
    (schemaParam includeViewsParam : Option Str) (catalog : List TableRow) :
    (apiMdTables (some ()) engine schemaParam includeViewsParam).2
        = [tablesSql schemaParam includeViewsParam]
    ∧ (includeViewsFlag (some "TrUe".data) = true ∧ includeViewsFlag none = false)
    ∧ (∀ r ∈ tablesQuery schemaParam (includeViewsFlag includeViewsParam) catalog,
        r.table_schema ≠ "information_schema".data
          ∧ r.table_schema ≠ "pg_catalog".data)
    ∧ (∀ q, schemaParam = some q → q ≠ [] →
        ∀ r ∈ tablesQuery schemaParam (includeViewsFlag includeViewsParam) catalog,
          r.table_schema = q)
    ∧ (includeViewsFlag includeViewsParam = false →
        ∀ r ∈ tablesQuery schemaParam (includeViewsFlag includeViewsParam) catalog,
          r.table_type = "BASE TABLE".data)
    ∧ (∀ r ∈ catalog, r.table_type = "VIEW".data →
        schemaNotSystem r.table_schema = true →
        schemaFilterPasses schemaParam r.table_schema = true →
        (r ∈ tablesQuery schemaParam (includeViewsFlag includeViewsParam) catalog
          ↔ includeViewsFlag includeViewsParam = true))
    ∧ List.Sorted rowOrder
        (tablesQuery schemaParam (includeViewsFlag includeViewsParam) catalog) := by
  have hmem : ∀ (iv : Bool) (r : TableRow),
      r ∈ tablesQuery schemaParam iv catalog
        ↔ tablesWherePasses schemaParam iv r = true ∧ r ∈ catalog := by
    intro iv r
    rw [tablesQuery, (List.perm_insertionSort rowOrder _).mem_iff, List.mem_filter]
    tauto
  refine ⟨?_, ⟨by decide, by decide⟩, ?_, ?_, ?_, ?_, ?_⟩
  · cases h : engine (tablesSql schemaParam includeViewsParam) <;>
      simp [apiMdTables, h]
  · intro r hr
    obtain ⟨hp, _⟩ := (hmem _ r).mp hr
    simp only [tablesWherePasses, Bool.and_eq_true, schemaNotSystem,
      decide_eq_true_eq, not_or] at hp
    exact hp.1.2
  · intro q hq hqe r hr
    obtain ⟨hp, _⟩ := (hmem _ r).mp hr
    subst hq
    have he : q.isEmpty = false := List.isEmpty_eq_false.mpr hqe
    simp only [tablesWherePasses, Bool.and_eq_true, schemaFilterPasses, he,
      Bool.false_eq_true, if_false, decide_eq_true_eq] at hp
    exact hp.2
  · intro hflag r hr
    rw [hflag] at hr
    obtain ⟨hp, _⟩ := (hmem false r).mp hr
    simp only [tablesWherePasses, Bool.and_eq_true, typeFilterPasses,
      if_neg Bool.false_ne_true, decide_eq_true_eq] at hp
    exact hp.1.1
  · intro r hrcat hview hsys hsch
    constructor
    · intro hr
      cases hflag : includeViewsFlag includeViewsParam with
      | true => rfl
      | false =>
        rw [hflag] at hr
        obtain ⟨hp, _⟩ := (hmem false r).mp hr
        simp only [tablesWherePasses, Bool.and_eq_true, typeFilterPasses,
          if_neg Bool.false_ne_true, decide_eq_true_eq, hview] at hp
        exact absurd hp.1.1 (by decide)
    · intro hflag
      rw [hflag]
      refine (hmem true r).mpr ⟨?_, hrcat⟩
      simp [tablesWherePasses, typeFilterPasses, hview, hsys, hsch]
  · exact List.sorted_insertionSort rowOrder _

/-- Witness for C6: a view-typed catalog row is in the query result when the
`includeViews` parameter is `TrUe`. -/
theorem tablesQuery_filters_and_order_witness :
    (⟨"db".data, "main".data, "v1".data, "VIEW".data⟩ : TableRow)
      ∈ tablesQuery none (includeViewsFlag (some "TrUe".data))
          [⟨"db".data, "main".data, "v1".data, "VIEW".data⟩] :=
  ((tablesQuery_filters_and_order (fun _ => .ok []) none (some "TrUe".data)
      [⟨"db".data, "main".data, "v1".data, "VIEW".data⟩]).2.2.2.2.2.1
    ⟨"db".data, "main".data, "v1".data, "VIEW".data⟩
    (List.mem_singleton.mpr rfl) rfl (by decide) (by decide)).mpr (by decide)

/-- C9: the `schema` query parameter is interpolated into the catalog query
verbatim and unescaped inside `AND table_schema = '...'`; consequently there
is a parameter value containing a single quote (shown at the exact offset of
the filter clause's literal in the built query) for which the SQL literal
standing at that position denotes a different value — the clause is not a
comparison against the caller's value. -/
theorem tablesSql_schema_injection :
    (∀ (s : Str) (iv : Option Str), s ≠ [] →
      ∃ pre post, tablesSql (some s) iv
        = pre ++ ("AND table_schema = '".data ++ s ++ "'".data) ++ post)
    ∧ quoteChar ∈ "x' OR table_schema = 'y".data
    ∧ parseLit ((tablesSql (some "x' OR table_schema = 'y".data) none).drop 237)
        = some ("x".data,
            " OR table_schema = 'y'\n      ORDER BY table_catalog, table_schema, table_name\n    ".data)
    ∧ "x".data ≠ "x' OR table_schema = 'y".data := by
  refine ⟨?_, by decide, by decide, by decide⟩
  intro s iv hs
  have he : s.isEmpty = false := List.isEmpty_eq_false.mpr hs
  refine ⟨"\n      SELECT table_catalog, table_schema, table_name, table_type\n      FROM information_schema.tables\n      WHERE table_type ".data
      ++ typeFilterStr (includeViewsFlag iv)
      ++ "\n        AND table_schema NOT IN ('information_schema', 'pg_catalog')\n        ".data,
    "\n      ORDER BY table_catalog, table_schema, table_name\n    ".data, ?_⟩
  simp only [tablesSql, schemaFilterStr, he, Bool.false_eq_true, if_false,
    List.append_assoc]

/-- Witness for C9: the verbatim-embedding part at the parameter `main`. -/
theorem tablesSql_schema_injection_witness :
    ∃ pre post, tablesSql (some "main".data) none
      = pre ++ ("AND table_schema = '".data ++ "main".data ++ "'".data) ++ post :=
  tablesSql_schema_injection.1 "main".data none (by decide)

/-- C10: in the ATTACH statement both interpolated values have every single
quote doubled, so the two embedded literals are well-formed and denote
exactly the raw token and catalog identifier (parsing the statement at each
literal's position recovers the raw value); the name in the USE statement is
the piece of the (escaped) identifier after the last `md:` occurrence when
one is present — it follows an `md:` and holds none — otherwise the (escaped)
identifier itself, which for a quote-free identifier is the identifier; and it
is embedded between `USE ` and `;` with no quoting. -/
theorem attachStmt_escaping_and_useStmt_dbName (db tok : Str) :
    parseLit ((attachStmt (escapeQuotes db) (escapeQuotes tok)).drop 7)
      = some (db, " (TOKEN '".data ++ (escapeQuotes tok ++ "');".data))
    ∧ parseLit ((" (TOKEN '".data ++ (escapeQuotes tok ++ "');".data)).drop 8)
      = some (tok, ");".data)
    ∧ (containsMd (escapeQuotes db) = true →
        ∃ pre, escapeQuotes db = pre ++ mdSep ++ dbNameOf (escapeQuotes db)
          ∧ containsMd (dbNameOf (escapeQuotes db)) = false)
    ∧ (containsMd (escapeQuotes db) = false →
        dbNameOf (escapeQuotes db) = escapeQuotes db)
    ∧ (quoteChar ∉ db → escapeQuotes db = db)
    ∧ useStmt (escapeQuotes db)
        = "USE ".data ++ (dbNameOf (escapeQuotes db) ++ ";".data) := by
  refine ⟨?_, ?_, ?_, ?_, escapeQuotes_of_not_mem, ?_⟩
  · have hassoc : attachStmt (escapeQuotes db) (escapeQuotes tok)
        = "ATTACH '".data ++ (escapeQuotes db
            ++ ("' (TOKEN '".data ++ (escapeQuotes tok ++ "');".data))) := by
      rw [attachStmt]
      simp only [List.append_assoc]
    have hdrop : (attachStmt (escapeQuotes db) (escapeQuotes tok)).drop 7
        = quoteChar :: (escapeQuotes db
            ++ (quoteChar :: (" (TOKEN '".data ++ (escapeQuotes tok ++ "');".data)))) := by
      rw [hassoc]
      rfl
    rw [hdrop, parseLit, if_pos rfl]
    exact parseLitAux_escape db (by
      intro hcon
      have h2 : some ' ' = some quoteChar := hcon
      exact absurd h2 (by decide))
  · have hdrop2 : ((" (TOKEN '".data ++ (escapeQuotes tok ++ "');".data)).drop 8)
        = quoteChar :: (escapeQuotes tok ++ (quoteChar :: ");".data)) := rfl
    rw [hdrop2, parseLit, if_pos rfl]
    exact parseLitAux_escape tok (by
      intro hcon
      have h2 : some ')' = some quoteChar := hcon
      exact absurd h2 (by decide))
  · intro h
    obtain ⟨_, pre, heq, hl⟩ := (splitOnMd_last_spec (escapeQuotes db)).2 h
    rw [dbNameOf, if_pos h]
    exact ⟨pre, heq, hl⟩
  · intro h
    rw [dbNameOf, if_neg (by simp [h])]
  · rw [useStmt]
    simp only [List.append_assoc]

/-- Witness for C10: a quote-free identifier passes through escaping
unchanged, and the ATTACH literal for identifier `md:perps` and token
`se'cret` parses back to the raw values. -/
theorem attachStmt_escaping_and_useStmt_dbName_witness :
    escapeQuotes "md:perps".data = "md:perps".data
    ∧ parseLit ((attachStmt (escapeQuotes "md:perps".data)
          (escapeQuotes "se'cret".data)).drop 7)
        = some ("md:perps".data,
            " (TOKEN '".data ++ (escapeQuotes "se'cret".data ++ "');".data)) :=
  ⟨(attachStmt_escaping_and_useStmt_dbName "md:perps".data "se'cret".data).2.2.2.2.1
      (by decide),
   (attachStmt_escaping_and_useStmt_dbName "md:perps".data "se'cret".data).1⟩

end DexServer
